import Mathlib

/-!
Verification of the akamai-cache-tester core (src/app.py) against its
natural-language specification.  Python code is shallowly embedded:
strings are `String`, ints are `Int`/`Nat`, floats are modelled as exact
rationals `ℚ`, dicts are association lists, and fallible operations
return `Option`.  The network fetch performed by the probe unit is
represented by passing the fetch outcome (`Except` of an error message or
a completed `Response`) into the embedded function.
-/

set_option autoImplicit false

namespace AkamaiCacheTester

/-! ## String utilities (Python `in`, `str.split`, `int(...)`) -/

/-- `leadsWith needle hay` is true when `needle` occurs at the start of `hay`. -/
def leadsWith : List Char → List Char → Bool
  | [], _ => true
  | _ :: _, [] => false
  | c :: cs, d :: ds => c == d && leadsWith cs ds

/-- `hasSub needle hay` is true when `needle` occurs contiguously anywhere in `hay`. -/
def hasSub (needle : List Char) : List Char → Bool
  | [] => needle.isEmpty
  | c :: ds => leadsWith needle (c :: ds) || hasSub needle ds

/-- Python's `needle in hay` substring test. -/
def strContains (hay needle : String) : Bool :=
  hasSub needle.toList hay.toList

/-- ASCII whitespace, as stripped by Python's `str.strip()`. -/
def isSpaceChar (c : Char) : Bool :=
  c == ' ' || c == '\t' || c == '\n' || c == '\r' || c == '\x0b' || c == '\x0c'

/-- Python `str.strip()` (ASCII whitespace). -/
def pyStrip (s : String) : String :=
  String.mk (((s.toList.dropWhile isSpaceChar).reverse.dropWhile isSpaceChar).reverse)

/-- Fuel-driven worker for `pySplit`; `fuel` bounds the number of characters
still to be consumed, so `s.length + 1` fuel always suffices. -/
def pySplitGo (sep : List Char) : Nat → List Char → List Char → List (List Char)
  | _, acc, [] => [acc.reverse]
  | 0, acc, rest => [acc.reverse ++ rest]
  | fuel + 1, acc, c :: cs =>
    if leadsWith sep (c :: cs) then
      acc.reverse :: pySplitGo sep fuel [] (List.drop (sep.length - 1) cs)
    else
      pySplitGo sep fuel (c :: acc) cs

/-- Python `s.split(sep)` for a nonempty separator: cut at every
non-overlapping occurrence of `sep`, scanning left to right. -/
def pySplit (s sep : String) : List String :=
  (pySplitGo sep.toList (s.toList.length + 1) [] s.toList).map String.mk

/-- Digit accumulator for `pyInt`; allows single underscores between digits
as Python's `int` does. -/
def pyDigitsGo (acc : Nat) : List Char → Option Nat
  | [] => some acc
  | '_' :: c :: cs =>
    if c.isDigit then pyDigitsGo (acc * 10 + (c.toNat - 48)) cs else none
  | ['_'] => none
  | c :: cs =>
    if c.isDigit then pyDigitsGo (acc * 10 + (c.toNat - 48)) cs else none

/-- Value of a nonempty digit string (underscore separators allowed between digits). -/
def pyDigitsVal : List Char → Option Nat
  | [] => none
  | c :: cs => if c.isDigit then pyDigitsGo (c.toNat - 48) cs else none

/-- Models Python `int(s)` on ASCII input: surrounding whitespace stripped,
optional sign, decimal digits with single underscores allowed between digits.
Returns `none` where Python raises `ValueError`. -/
def pyInt (s : String) : Option Int :=
  match (pyStrip s).toList with
  | '+' :: cs => (pyDigitsVal cs).map (fun n => (n : Int))
  | '-' :: cs => (pyDigitsVal cs).map (fun n => -(n : Int))
  | cs => (pyDigitsVal cs).map (fun n => (n : Int))

/-! ## Cache Status Classifier (src/app.py lines 104-139)

The decision ladder of `check_akamai_cache` expressed as a pure function of
the four extracted signals it reads: `x_cache`, `x_check_cacheable`, `age`
and `x_timer`.  The result pairs the verdict string with the
`response_time_ms` value (populated only on the timing path). -/

/-- `x_timer.split('VE')[1].split(',')[0]` from the source.  The index-1
access is guarded in the source by `'VE' in x_timer`; the default `""` here
makes `pyInt` fail exactly where Python's `IndexError` would be caught. -/
def veSegment (x_timer : String) : String :=
  (pySplit ((pySplit x_timer "VE").getD 1 "") ",").headD ""

/-- Rule 1 predicate of the ladder. -/
def ruleHit (x_cache : String) : Bool :=
  strContains x_cache "TCP_HIT" || strContains x_cache "TCP_MEM_HIT"

/-- Rule 6 predicate: Python `age and age != '0'` (empty string is falsy). -/
def ruleAge (age : String) : Bool :=
  age != "" && age != "0"

/-- Rule 7 guard: `x_timer != 'NOT_FOUND' and 'VE' in x_timer`. -/
def ruleTimer (x_timer : String) : Bool :=
  x_timer != "NOT_FOUND" && strContains x_timer "VE"

/-- The classifier of src/app.py lines 104-139: a first-match-wins decision
ladder over the extracted signals, returning `(cache_hit, response_time_ms)`. -/
def classifySignals (x_cache x_check_cacheable age x_timer : String) :
    String × Option Int :=
  if ruleHit x_cache then ("HIT", none)
  else if strContains x_cache "TCP_MISS" then ("MISS", none)
  else if strContains x_cache "TCP_REFRESH_HIT" then ("REFRESH_HIT", none)
  else if strContains x_cache "TCP_REFRESH_MISS" then ("REFRESH_MISS", none)
  else if x_check_cacheable == "NO" then ("NOT_CACHEABLE", none)
  else if ruleAge age then ("HIT", none)
  else if ruleTimer x_timer then
    match pyInt (veSegment x_timer) with
    | some t =>
      if t < 100 then ("HIT (inferred from timing)", some t)
      else if t > 500 then ("MISS (inferred from timing)", some t)
      else ("UNKNOWN (timing inconclusive)", some t)
    | none => ("UNKNOWN", none)
  else ("UNKNOWN", none)

/-- C1: the classifier evaluates the decision ladder top-to-bottom and returns
the verdict of the first matching rule — hit-family markers in `x_cache` give
`HIT`, then `TCP_MISS` gives `MISS`, then `TCP_REFRESH_HIT` gives
`REFRESH_HIT`, then `TCP_REFRESH_MISS` gives `REFRESH_MISS`, then
cacheability-check `"NO"` gives `NOT_CACHEABLE`, then a present age different
from `"0"` gives `HIT` — with later rules never consulted once an earlier one
matches (rule 1 holds for every `age`, in particular `age = "0"`); when no
rule (including the timing rule's guard) matches, the verdict is `UNKNOWN`. -/
theorem C1_classifier_decision_ladder (x_cache x_check_cacheable age x_timer : String) :
    (ruleHit x_cache = true →
      classifySignals x_cache x_check_cacheable age x_timer = ("HIT", none)) ∧
    (ruleHit x_cache = false → strContains x_cache "TCP_MISS" = true →
      classifySignals x_cache x_check_cacheable age x_timer = ("MISS", none)) ∧
    (ruleHit x_cache = false → strContains x_cache "TCP_MISS" = false →
      strContains x_cache "TCP_REFRESH_HIT" = true →
      classifySignals x_cache x_check_cacheable age x_timer = ("REFRESH_HIT", none)) ∧
    (ruleHit x_cache = false → strContains x_cache "TCP_MISS" = false →
      strContains x_cache "TCP_REFRESH_HIT" = false →
      strContains x_cache "TCP_REFRESH_MISS" = true →
      classifySignals x_cache x_check_cacheable age x_timer = ("REFRESH_MISS", none)) ∧
    (ruleHit x_cache = false → strContains x_cache "TCP_MISS" = false →
      strContains x_cache "TCP_REFRESH_HIT" = false →
      strContains x_cache "TCP_REFRESH_MISS" = false →
      (x_check_cacheable == "NO") = true →
      classifySignals x_cache x_check_cacheable age x_timer = ("NOT_CACHEABLE", none)) ∧
    (ruleHit x_cache = false → strContains x_cache "TCP_MISS" = false →
      strContains x_cache "TCP_REFRESH_HIT" = false →
      strContains x_cache "TCP_REFRESH_MISS" = false →
      (x_check_cacheable == "NO") = false → ruleAge age = true →
      classifySignals x_cache x_check_cacheable age x_timer = ("HIT", none)) ∧
    (ruleHit x_cache = false → strContains x_cache "TCP_MISS" = false →
      strContains x_cache "TCP_REFRESH_HIT" = false →
      strContains x_cache "TCP_REFRESH_MISS" = false →
      (x_check_cacheable == "NO") = false → ruleAge age = false →
      ruleTimer x_timer = false →
      classifySignals x_cache x_check_cacheable age x_timer = ("UNKNOWN", none)) := by
  refine ⟨?_, ?_, ?_, ?_, ?_, ?_, ?_⟩ <;> intros <;> simp_all [classifySignals]

/-- Witness for C1 at the spec's concrete instance: cache-indicator
`"TCP_HIT"` with age `"0"` classifies as `HIT` via rule 1. -/
theorem C1_classifier_decision_ladder_witness :
    classifySignals "TCP_HIT" "UNKNOWN" "0" "NOT_FOUND" = ("HIT", none) :=
  (C1_classifier_decision_ladder "TCP_HIT" "UNKNOWN" "0" "NOT_FOUND").1 (by decide)

/-- C2: when rules 1-6 fail and the timing header is present and contains
`"VE"`, the classifier parses the integer after `"VE"`; a valid integer `t`
yields `HIT (inferred from timing)` for `t < 100`, `MISS (inferred from
timing)` for `t > 500`, and `UNKNOWN (timing inconclusive)` otherwise, in all
three cases recording `t` as `response_time_ms`; on parse failure the verdict
is `UNKNOWN` with `response_time_ms` unpopulated. -/
theorem C2_timing_inference (x_cache x_check_cacheable age x_timer : String)
    (h1 : ruleHit x_cache = false)
    (h2 : strContains x_cache "TCP_MISS" = false)
    (h3 : strContains x_cache "TCP_REFRESH_HIT" = false)
    (h4 : strContains x_cache "TCP_REFRESH_MISS" = false)
    (h5 : (x_check_cacheable == "NO") = false)
    (h6 : ruleAge age = false)
    (h7 : ruleTimer x_timer = true) :
    (∀ t : Int, pyInt (veSegment x_timer) = some t →
      classifySignals x_cache x_check_cacheable age x_timer =
        (if t < 100 then "HIT (inferred from timing)"
         else if t > 500 then "MISS (inferred from timing)"
         else "UNKNOWN (timing inconclusive)", some t)) ∧
    (pyInt (veSegment x_timer) = none →
      classifySignals x_cache x_check_cacheable age x_timer = ("UNKNOWN", none)) := by
  constructor
  · intro t ht
    simp_all only [classifySignals, Bool.false_eq_true, if_false, if_true]
    split_ifs <;> simp_all
  · intro ht
    simp_all [classifySignals]

/-- Witness for C2 at the spec's concrete instance: timing header
`"S1,VS0,VS0,VE50"` with no other signal gives an inferred hit with
response time 50. -/
theorem C2_timing_inference_witness :
    classifySignals "NOT_FOUND" "UNKNOWN" "0" "S1,VS0,VS0,VE50" =
      ("HIT (inferred from timing)", some 50) := by
  have h := (C2_timing_inference "NOT_FOUND" "UNKNOWN" "0" "S1,VS0,VS0,VE50"
    (by decide) (by decide) (by decide) (by decide) (by decide) (by decide)
    (by decide)).1 50 (by decide)
  simpa using h

/-! ## Regular expressions

A small prioritized-backtracking regex engine sufficient for the patterns
used by `detect_aem` (src/app.py lines 189-331): literals, character
classes, word boundaries, end anchor, sequencing, alternation,
greedy/lazy star and a single capture group.  Matching follows Python
`re` semantics: leftmost match, greedy stars prefer longer, lazy stars
prefer shorter, alternation prefers the left branch. -/

inductive RE where
  | eps
  | ch (c : Char)
  | cls (p : Char → Bool)
  | wordB
  | eol
  | seq (a b : RE)
  | alt (a b : RE)
  | star (a : RE) (lazy : Bool)
  | group (a : RE)

/-- Word character for `\b` (ASCII view of Python's `\w`). -/
def isWordChar (c : Char) : Bool := c.isAlphanum || c == '_'

/-- Structural size of a pattern, used to bound the matcher's fuel. -/
def reSize : RE → Nat
  | .eps | .ch _ | .cls _ | .wordB | .eol => 1
  | .seq a b | .alt a b => reSize a + reSize b + 1
  | .star a _ => reSize a + 1
  | .group a => reSize a + 1

/-- Continuation-passing backtracking matcher.  `reMatch fuel re s pos cap k`
matches `re` at index `pos` of `s`, threading the capture-group span `cap`,
and calls `k` with the end position and capture on each candidate match, in
priority order.  Fuel only bounds recursion depth; every chain of nested
calls consumes at least one unit per step. -/
def reMatch : Nat → RE → List Char → Nat → Option (Nat × Nat) →
    (Nat → Option (Nat × Nat) → Option (Nat × Option (Nat × Nat))) →
    Option (Nat × Option (Nat × Nat))
  | 0, _, _, _, _, _ => none
  | fuel + 1, re, s, pos, cap, k =>
    match re with
    | .eps => k pos cap
    | .ch c =>
      match s.get? pos with
      | some d => if d == c then k (pos + 1) cap else none
      | none => none
    | .cls p =>
      match s.get? pos with
      | some d => if p d then k (pos + 1) cap else none
      | none => none
    | .wordB =>
      let beforeW := match pos with
        | 0 => false
        | i + 1 => match s.get? i with | some d => isWordChar d | none => false
      let afterW := match s.get? pos with | some d => isWordChar d | none => false
      if beforeW != afterW then k pos cap else none
    | .eol => if pos == s.length then k pos cap else none
    | .seq a b => reMatch fuel a s pos cap (fun p c => reMatch fuel b s p c k)
    | .alt a b =>
      match reMatch fuel a s pos cap k with
      | some r => some r
      | none => reMatch fuel b s pos cap k
    | .star a lz =>
      if lz then
        match k pos cap with
        | some r => some r
        | none => reMatch fuel a s pos cap
            (fun p c => if pos < p then reMatch fuel (.star a lz) s p c k else none)
      else
        match reMatch fuel a s pos cap
            (fun p c => if pos < p then reMatch fuel (.star a lz) s p c k else none) with
        | some r => some r
        | none => k pos cap
    | .group a => reMatch fuel a s pos cap (fun p _ => k p (some (pos, p)))

/-- Fuel that always suffices for `reMatch` on `s`: stars advance at least
one character per iteration, so chains are bounded by `length × size`. -/
def reFuel (r : RE) (s : List Char) : Nat :=
  (s.length + 2) * (reSize r + 2) + 2

/-- Attempt a match anchored at `pos`; returns end position and capture span. -/
def searchAt (r : RE) (s : List Char) (pos : Nat) : Option (Nat × Option (Nat × Nat)) :=
  reMatch (reFuel r s) r s pos none (fun p c => some (p, c))

/-- Scan for the leftmost match at or after `pos`; `tries` counts remaining
start positions. -/
def firstMatchGo (r : RE) (s : List Char) : Nat → Nat → Option (Nat × Nat × Option (Nat × Nat))
  | _, 0 => none
  | pos, tries + 1 =>
    match searchAt r s pos with
    | some (e, cap) => some (pos, e, cap)
    | none => firstMatchGo r s (pos + 1) tries

/-- Python `re.search`: leftmost match of `r` in `s`. -/
def reSearch (r : RE) (s : List Char) : Option (Nat × Nat × Option (Nat × Nat)) :=
  firstMatchGo r s 0 (s.length + 1)

/-- Contiguous slice `s[a:b]`. -/
def slice (s : List Char) (a b : Nat) : List Char := (s.drop a).take (b - a)

/-- Worker for `reFindall`: repeatedly take the leftmost match, emit the
capture-group text (or the whole match when the pattern has no group), and
continue after the match, advancing one extra position after an empty match. -/
def findallGo (r : RE) (s : List Char) : Nat → Nat → List (List Char)
  | _, 0 => []
  | pos, fuel + 1 =>
    match firstMatchGo r s pos (s.length + 1 - pos) with
    | none => []
    | some (st, e, cap) =>
      let tok := match cap with
        | some (a, b) => slice s a b
        | none => slice s st e
      tok :: findallGo r s (if st < e then e else e + 1) fuel

/-- Python `re.findall` (for patterns with at most one capture group). -/
def reFindall (r : RE) (s : String) : List String :=
  (findallGo r s.toList 0 (s.toList.length + 2)).map String.mk

/-- Python `re.search(...) is not None`. -/
def reSearchQ (r : RE) (s : String) : Bool := (reSearch r s.toList).isSome

/-- Python `re.search(...).group(1)` as an `Option`. -/
def reSearchGroup1 (r : RE) (s : String) : Option String :=
  match reSearch r s.toList with
  | some (_, _, some (a, b)) => some (String.mk (slice s.toList a b))
  | _ => none

/-! ### Pattern constructors and the patterns of detect_aem -/

/-- Concatenation of a list of patterns. -/
def reCat (rs : List RE) : RE := rs.foldr RE.seq RE.eps

/-- Literal string pattern. -/
def reLit (str : String) : RE := reCat (str.toList.map RE.ch)

/-- Left-preferring alternation of a nonempty list of patterns. -/
def reAlts : List RE → RE
  | [] => RE.eps
  | r :: rs => rs.foldl RE.alt r

/-- One or more repetitions (greedy). -/
def rePlus (r : RE) : RE := RE.seq r (RE.star r false)

/-- Character class `["\']`. -/
def quoteCls : RE := RE.cls (fun c => c == '"' || c == '\'')

/-- Character class `[^"\']`. -/
def nonQuote : RE := RE.cls (fun c => !(c == '"' || c == '\''))

/-- Character class `[a-z\-]`. -/
def lowerDash : RE :=
  RE.cls (fun c => (decide (97 ≤ c.toNat) && decide (c.toNat ≤ 122)) || c == '-')

/-- Character class `[a-z]`. -/
def lowerAlpha : RE :=
  RE.cls (fun c => decide (97 ≤ c.toNat) && decide (c.toNat ≤ 122))

/-- The `.` class under `re.DOTALL`. -/
def anyChar : RE := RE.cls (fun _ => true)

/-- Character class `[^>]`. -/
def nonGt : RE := RE.cls (fun c => c != '>')

/-- Pattern `class=["\'][^"\']*\b(cq-[a-z\-]+)\b[^"\']*["\']`. -/
def patCqClass : RE :=
  reCat [reLit "class=", quoteCls, RE.star nonQuote false, RE.wordB,
    RE.group (reCat [reLit "cq-", rePlus lowerDash]), RE.wordB,
    RE.star nonQuote false, quoteCls]

/-- Pattern `class=["\'][^"\']*\b(aem-[a-z\-]+)\b[^"\']*["\']`. -/
def patAemClass : RE :=
  reCat [reLit "class=", quoteCls, RE.star nonQuote false, RE.wordB,
    RE.group (reCat [reLit "aem-", rePlus lowerDash]), RE.wordB,
    RE.star nonQuote false, quoteCls]

/-- Pattern `(data-cq-[a-z\-]+)=`. -/
def patDataAttr : RE :=
  reCat [RE.group (reCat [reLit "data-cq-", rePlus lowerDash]), RE.ch '=']

/-- Pattern `data-path=["\'][^"\']*["\']`. -/
def patDataPath : RE :=
  reCat [reLit "data-path=", quoteCls, RE.star nonQuote false, quoteCls]

/-- Pattern `<!--.*?(adobe experience manager|day cq|/apps/|/libs/|/content/).*?-->`
with `re.DOTALL` (the `re.IGNORECASE` flag is immaterial: the subject is
already lower-cased and the pattern contains no letters of differing case). -/
def patAemComment : RE :=
  reCat [reLit "<!--", RE.star anyChar true,
    RE.group (reAlts [reLit "adobe experience manager", reLit "day cq",
      reLit "/apps/", reLit "/libs/", reLit "/content/"]),
    RE.star anyChar true, reLit "-->"]

/-- Pattern `(/etc\.clientlibs/[^"\']+\.js)`. -/
def patClientlibJs : RE :=
  RE.group (reCat [reLit "/etc.clientlibs/", rePlus nonQuote, reLit ".js"])

/-- Pattern `(/etc/clientlibs/[^"\']+\.js)`. -/
def patOldClientlibJs : RE :=
  RE.group (reCat [reLit "/etc/clientlibs/", rePlus nonQuote, reLit ".js"])

/-- Pattern `(/etc\.clientlibs/[^"\']+\.css)`. -/
def patClientlibCss : RE :=
  RE.group (reCat [reLit "/etc.clientlibs/", rePlus nonQuote, reLit ".css"])

/-- Pattern `(/etc/clientlibs/[^"\']+\.css)`. -/
def patOldClientlibCss : RE :=
  RE.group (reCat [reLit "/etc/clientlibs/", rePlus nonQuote, reLit ".css"])

/-- Pattern `(granite\.js|coral\.js|graniteui)`. -/
def patGranite : RE :=
  RE.group (reAlts [reLit "granite.js", reLit "coral.js", reLit "graniteui"])

/-- Pattern `(/libs/[^"\']+)`. -/
def patLibs : RE := RE.group (reCat [reLit "/libs/", rePlus nonQuote])

/-- Pattern `(/apps/[^"\']+)`. -/
def patApps : RE := RE.group (reCat [reLit "/apps/", rePlus nonQuote])

/-- Pattern `\.html(\?|$)`. -/
def patHtmlExt : RE := reCat [reLit ".html", RE.group (RE.alt (RE.ch '?') RE.eol)]

/-- Pattern `\.[a-z]+\.[a-z]+\.html`. -/
def patSelector : RE :=
  reCat [RE.ch '.', rePlus lowerAlpha, RE.ch '.', rePlus lowerAlpha, reLit ".html"]

/-- Pattern `<meta[^>]+name=["\']generator["\'][^>]+content=["\']([^"\']+)["\']`
(`re.IGNORECASE` immaterial on the lower-cased subject). -/
def patMetaGenerator : RE :=
  reCat [reLit "<meta", rePlus nonGt, reLit "name=", quoteCls,
    reLit "generator", quoteCls, rePlus nonGt, reLit "content=", quoteCls,
    RE.group (rePlus nonQuote), quoteCls]

/-- Pattern `wcmmode`. -/
def patWcmmode : RE := reLit "wcmmode"

/-! ## HTTP responses and the Content Signature Scorer (detect_aem) -/

/-- The parts of a `requests.Response` that the embedded code reads. -/
structure Response where
  text : String
  headers : List (String × String)
  url : String
  status_code : Nat

/-- ASCII lower-casing of one character (Python `str.lower()` on ASCII). -/
def lowerChar (c : Char) : Char :=
  if decide (65 ≤ c.toNat) && decide (c.toNat ≤ 90) then Char.ofNat (c.toNat + 32) else c

/-- Python `str.lower()` (ASCII model). -/
def pyLower (s : String) : String := String.mk (s.toList.map lowerChar)

/-- Assignment `d[k] = v` on a Python dict modelled as an association list:
first-insertion position, last-assigned value. -/
def dictAssign (d : List (String × String)) (k v : String) : List (String × String) :=
  if d.any (fun p => p.1 == k) then d.map (fun p => if p.1 == k then (p.1, v) else p)
  else d ++ [(k, v)]

/-- The dict comprehension lowering header names in detect_aem
(src/app.py line 217). -/
def pyDictLower (hs : List (String × String)) : List (String × String) :=
  hs.foldl (fun d p => dictAssign d (pyLower p.1) p.2) []

/-- Python `list(set(xs))` modelled as order-preserving deduplication
(CPython's set iteration order is unspecified; no claim depends on it). -/
def pyListSet (l : List String) : List String :=
  l.foldl (fun acc s => if acc.contains s then acc else acc ++ [s]) []

/-- Guarded confidence increment: `if cond: confidence += x`. -/
def addIf (b : Bool) (x c : ℚ) : ℚ := if b then c + x else c

/-- Guarded evidence extension: `if cond: evidence[cat].extend(xs)`. -/
def extendIf (b : Bool) (xs ev : List String) : List String := if b then ev ++ xs else ev

/-- The test `any(x in header for x in ['x-aem', 'x-cq'])` from the header
loop of detect_aem. -/
def xHeaderHit (p : String × String) : Bool :=
  ["x-aem", "x-cq"].any (fun x => strContains p.1 x)

/-- The second arm of the header loop: not an `x-aem`/`x-cq` header, but the
value contains `day cq` after lowering. -/
def dayCqHit (p : String × String) : Bool :=
  !xHeaderHit p && strContains (pyLower p.2) "day cq"

/-- One iteration of the header loop of detect_aem (src/app.py lines 250-256):
a header whose lowered name contains `x-aem` or `x-cq` adds 0.3, otherwise a
value containing `day cq` adds 0.25; matching headers are echoed as evidence. -/
def headerEntryStep (acc : ℚ × List String) (p : String × String) : ℚ × List String :=
  if xHeaderHit p then
    (acc.1 + 3/10, acc.2 ++ [p.1 ++ ": " ++ p.2])
  else if strContains (pyLower p.2) "day cq" then
    (acc.1 + 1/4, acc.2 ++ [p.1 ++ ": " ++ p.2])
  else acc

/-- The header loop of detect_aem as a fold. -/
def headersFold (hs : List (String × String)) (acc : ℚ × List String) : ℚ × List String :=
  hs.foldl headerEntryStep acc

/-- The Content Signature Scorer `detect_aem` (src/app.py lines 189-331).
Returns `(is_aem, confidence, evidence)`.  Confidence increments are the
source's float literals as exact rationals; the final confidence is capped at
1 and the detection threshold is 0.3.  Note the source binds `original_html =
response.text` "to keep original case for evidence" but never uses it: every
evidence snippet below is drawn from the lower-cased `html_content`, exactly
as the source does. -/
def detect_aem (response : Response) : Bool × ℚ × List (String × List String) :=
  let html_content := pyLower response.text
  let headers := pyDictLower response.headers
  let url := response.url
  let cq_classes := reFindall patCqClass html_content
  let aem_classes := reFindall patAemClass html_content
  let data_attrs := reFindall patDataAttr html_content
  let data_path := reSearchQ patDataPath html_content
  let aem_comments := reFindall patAemComment html_content
  let clientlib_js := reFindall patClientlibJs html_content
  let old_clientlib_js := reFindall patOldClientlibJs html_content
  let clientlib_css := reFindall patClientlibCss html_content
  let old_clientlib_css := reFindall patOldClientlibCss html_content
  let granite := reSearchQ patGranite html_content
  let libs_paths := reFindall patLibs html_content
  let apps_paths := reFindall patApps html_content
  let contentInUrl := strContains url "/content/"
  let htmlExt := reSearchQ patHtmlExt url
  let selector := reSearchQ patSelector url
  let meta_generator := reSearchGroup1 patMetaGenerator html_content
  let metaHit := match meta_generator with
    | some g => strContains (pyLower g) "aem" || strContains (pyLower g) "day cq"
    | none => false
  let wcmmode := reSearchQ patWcmmode html_content
  let c1 := addIf (!cq_classes.isEmpty) (1/4) 0
  let c2 := addIf (!aem_classes.isEmpty) (1/4) c1
  let c3 := addIf (!data_attrs.isEmpty) (3/10) c2
  let c4 := addIf data_path (3/20) c3
  let c5 := addIf (!aem_comments.isEmpty) (1/5) c4
  let hc := headersFold headers (c5, [])
  let c7 := addIf (!clientlib_js.isEmpty) (7/20) hc.1
  let c8 := addIf (!old_clientlib_js.isEmpty) (7/20) c7
  let c9 := addIf (!clientlib_css.isEmpty) (3/10) c8
  let c10 := addIf (!old_clientlib_css.isEmpty) (3/10) c9
  let c11 := addIf granite (1/4) c10
  let c12 := addIf (!libs_paths.isEmpty) (1/5) c11
  let c13 := addIf (!apps_paths.isEmpty) (1/5) c12
  let c14 := addIf contentInUrl (3/20) c13
  let c15 := addIf htmlExt (1/20) c14
  let c16 := addIf selector (1/10) c15
  let c17 := addIf metaHit (3/10) c16
  let c18 := addIf wcmmode (3/20) c17
  let confidence := min c18 1
  let ev_html :=
    extendIf wcmmode ["wcmmode present"]
      (extendIf (!aem_classes.isEmpty) (pyListSet aem_classes)
        (extendIf (!cq_classes.isEmpty) (pyListSet cq_classes) []))
  let ev_data :=
    extendIf data_path ["data-path"]
      (extendIf (!data_attrs.isEmpty) (pyListSet data_attrs) [])
  let ev_comments :=
    extendIf (!aem_comments.isEmpty)
      ["Found " ++ toString aem_comments.length ++ " AEM-related comments"] []
  let ev_js :=
    extendIf (!apps_paths.isEmpty) (pyListSet (apps_paths.take 2))
      (extendIf (!libs_paths.isEmpty) (pyListSet (libs_paths.take 2))
        (extendIf granite ["AEM UI frameworks (granite.js/coral.js)"]
          (extendIf (!old_clientlib_js.isEmpty) (pyListSet (old_clientlib_js.take 3))
            (extendIf (!clientlib_js.isEmpty) (pyListSet (clientlib_js.take 3)) []))))
  let ev_css :=
    extendIf (!old_clientlib_css.isEmpty) (pyListSet (old_clientlib_css.take 3))
      (extendIf (!clientlib_css.isEmpty) (pyListSet (clientlib_css.take 3)) [])
  let ev_url :=
    extendIf selector ["Selector pattern in URL"]
      (extendIf htmlExt [".html extension"]
        (extendIf contentInUrl ["/content/ in URL"] []))
  let ev_meta :=
    extendIf metaHit
      [match meta_generator with
       | some g => "Generator: " ++ g
       | none => "Generator: "] []
  let evidence := [("html_classes", ev_html), ("data_attributes", ev_data),
    ("html_comments", ev_comments), ("headers", hc.2),
    ("javascript_paths", ev_js), ("css_paths", ev_css),
    ("url_patterns", ev_url), ("meta_tags", ev_meta)]
  let evidence := evidence.filter (fun p => !p.2.isEmpty)
  let is_aem := decide ((3 : ℚ)/10 ≤ confidence)
  (is_aem, confidence, evidence)

/-- Indicator-style increment: the increment a guarded `confidence += x`
contributes, written additively. -/
def ind (b : Bool) (x : ℚ) : ℚ := if b then x else 0

/-- The closed-form signal sum: every body/URL signal contributes its fixed
increment at most once (an indicator, regardless of how many duplicate
matches its pattern produced), while the header loop contributes 0.3 once
per `x-aem`/`x-cq` header and 0.25 once per remaining `day cq` header. -/
def signalTotal (response : Response) : ℚ :=
  let html_content := pyLower response.text
  let url := response.url
  ind (!(reFindall patCqClass html_content).isEmpty) (1/4) +
  ind (!(reFindall patAemClass html_content).isEmpty) (1/4) +
  ind (!(reFindall patDataAttr html_content).isEmpty) (3/10) +
  ind (reSearchQ patDataPath html_content) (3/20) +
  ind (!(reFindall patAemComment html_content).isEmpty) (1/5) +
  (3 : ℚ)/10 * (((pyDictLower response.headers).countP (fun p => xHeaderHit p)) : ℚ) +
  (1 : ℚ)/4 * (((pyDictLower response.headers).countP (fun p => dayCqHit p)) : ℚ) +
  ind (!(reFindall patClientlibJs html_content).isEmpty) (7/20) +
  ind (!(reFindall patOldClientlibJs html_content).isEmpty) (7/20) +
  ind (!(reFindall patClientlibCss html_content).isEmpty) (3/10) +
  ind (!(reFindall patOldClientlibCss html_content).isEmpty) (3/10) +
  ind (reSearchQ patGranite html_content) (1/4) +
  ind (!(reFindall patLibs html_content).isEmpty) (1/5) +
  ind (!(reFindall patApps html_content).isEmpty) (1/5) +
  ind (strContains url "/content/") (3/20) +
  ind (reSearchQ patHtmlExt url) (1/20) +
  ind (reSearchQ patSelector url) (1/10) +
  ind (match reSearchGroup1 patMetaGenerator html_content with
       | some g => strContains (pyLower g) "aem" || strContains (pyLower g) "day cq"
       | none => false) (3/10) +
  ind (reSearchQ patWcmmode html_content) (3/20)

theorem addIf_eq (b : Bool) (x c : ℚ) : addIf b x c = c + ind b x := by
  cases b <;> simp [addIf, ind]

theorem ind_nonneg {x : ℚ} (b : Bool) (h : 0 ≤ x) : 0 ≤ ind b x := by
  cases b <;> simp [ind, h]

/-- The header loop's confidence contribution is linear in the number of
matching headers: 0.3 per `x-aem`/`x-cq` header, 0.25 per remaining
`day cq` header. -/
theorem headersFold_fst (hs : List (String × String)) (acc : ℚ × List String) :
    (headersFold hs acc).1 =
      acc.1 + (3/10) * ((hs.countP (fun p => xHeaderHit p)) : ℚ) +
        (1/4) * ((hs.countP (fun p => dayCqHit p)) : ℚ) := by
  induction hs generalizing acc with
  | nil => simp [headersFold]
  | cons p t ih =>
    simp only [headersFold, List.foldl_cons] at ih ⊢
    rw [ih]
    by_cases h1 : xHeaderHit p
    · simp only [headerEntryStep, h1, if_true, List.countP_cons, dayCqHit,
        Bool.not_eq_true', h1, Bool.false_and]
      simp [h1, dayCqHit]
      ring
    · by_cases h2 : strContains (pyLower p.2) "day cq"
      · simp only [headerEntryStep, h1, if_false, h2, if_true]
        simp [List.countP_cons, h1, h2, dayCqHit]
        ring
      · simp only [headerEntryStep, h1, if_false, h2]
        simp [List.countP_cons, h1, h2, dayCqHit]

set_option maxHeartbeats 1000000 in
/-- The scorer's reported confidence is the clamped signal sum. -/
theorem detect_aem_confidence_eq (resp : Response) :
    (detect_aem resp).2.1 = min (signalTotal resp) 1 := by
  simp only [detect_aem, signalTotal, addIf_eq, headersFold_fst, zero_add]
  norm_cast

set_option maxHeartbeats 1000000 in
/-- The signal sum is a sum of nonnegative terms. -/
theorem signalTotal_nonneg (resp : Response) : 0 ≤ signalTotal resp := by
  unfold signalTotal
  repeat' apply add_nonneg
  all_goals first
    | (apply ind_nonneg; norm_num)
    | (apply mul_nonneg (by norm_num) (Nat.cast_nonneg _))

/-- A response carrying two `x-aem` headers, an empty body and an empty URL:
only the headers category of the scorer can match. -/
def respTwoXHeaders : Response :=
  { text := "", headers := [("X-AEM-Test", "1"), ("x-aem-b", "2")], url := "",
    status_code := 200 }

/-- A response whose body spells an AEM class marker in upper case. -/
def respUpperClass : Response :=
  { text := "<div class=\"CQ-Foo\">", headers := [], url := "", status_code := 200 }

set_option maxHeartbeats 4000000 in
/-- C5 counterexample: on a response whose only evidence category is
`headers`, with two distinct `x-aem` headers, the scorer's confidence is 0.6
— twice the fixed 0.3 increment of the headers category — so a single
category can contribute its increment more than once per response,
contradicting the claim as stated. -/
theorem C5_counterexample_headers_double :
    (detect_aem respTwoXHeaders).2.2 = [("headers", ["x-aem-test: 1", "x-aem-b: 2"])] ∧
    (detect_aem respTwoXHeaders).2.1 = 3/5 ∧
    ¬((detect_aem respTwoXHeaders).2.1 ≤ 3/10) := by
  have hx : (pyDictLower respTwoXHeaders.headers).countP (fun p => xHeaderHit p) = 2 := by
    decide
  have hd : (pyDictLower respTwoXHeaders.headers).countP (fun p => dayCqHit p) = 0 := by
    decide
  have h : signalTotal respTwoXHeaders = 3/5 := by
    simp +decide [signalTotal, ind, hx, hd]
    norm_num
  refine ⟨by decide, ?_, ?_⟩
  · rw [detect_aem_confidence_eq, h]; norm_num
  · rw [detect_aem_confidence_eq, h]; norm_num

/-- C5 amended: duplicate matches of one signal do not multiply its increment
— every body/URL signal contributes its fixed increment at most once per
response, as an indicator — but one category may accrue several distinct
signals' increments, and the headers category contributes 0.3 once per
`x-aem`/`x-cq` header and 0.25 once per remaining `day cq` header; the
reported confidence is the clamp of this signal sum at 1. -/
theorem C5_amended_per_signal_increment (resp : Response) :
    (detect_aem resp).2.1 = min (signalTotal resp) 1 :=
  detect_aem_confidence_eq resp

/-- C6 (code bug): matching is performed on the lower-cased body, but the
evidence snippet is also drawn from the lower-cased body — the source binds
`original_html` with the comment "Keep original case for evidence" and never
uses it.  On a body containing `class="CQ-Foo"` the evidence records
`"cq-foo"`, a string that does not occur in the original body. -/
theorem C6_evidence_is_lowercased :
    (detect_aem respUpperClass).2.2 = [("html_classes", ["cq-foo"])] ∧
    strContains respUpperClass.text "CQ-Foo" = true ∧
    strContains respUpperClass.text "cq-foo" = false := by
  refine ⟨by decide, by decide, by decide⟩

/-- C9: for every response the scorer's confidence lies in the closed
interval [0, 1], however many categories match. -/
theorem C9_confidence_in_unit_interval (resp : Response) :
    0 ≤ (detect_aem resp).2.1 ∧ (detect_aem resp).2.1 ≤ 1 := by
  rw [detect_aem_confidence_eq]
  exact ⟨le_min (signalTotal_nonneg resp) zero_le_one, min_le_right _ _⟩

/-- C10: the evidence map returned by the scorer never maps a category to an
empty list — unmatched categories are omitted entirely. -/
theorem C10_evidence_never_empty (resp : Response) (k : String) (v : List String)
    (h : (k, v) ∈ (detect_aem resp).2.2) : v ≠ [] := by
  simp only [detect_aem, List.mem_filter] at h
  simpa using h.2

/-- Witness for C10 at a concrete response whose evidence map is nonempty. -/
theorem C10_evidence_never_empty_witness :
    (["x-aem-test: 1", "x-aem-b: 2"] : List String) ≠ [] :=
  C10_evidence_never_empty respTwoXHeaders "headers" _ (by decide)

/-! ## Probe Unit (check_akamai_cache, src/app.py lines 82-187) -/

/-- The result record built by `check_akamai_cache`.  `status_code = none`
models the `'ERROR'` sentinel that replaces the integer status on failure;
all other sentinel fields keep their literal string values. -/
structure ProbeResult where
  url : String
  status_code : Option Nat
  cache_hit : String
  x_cache : String
  x_cache_remote : String
  x_check_cacheable : String
  x_cache_key : String
  x_true_cache_key : String
  x_served_by : String
  x_timer : String
  age : String
  cache_control : String
  response_time_ms : Option Int
  is_aem : Option Bool
  aem_confidence : Option ℚ
  aem_evidence : Option (List (String × List String))
  error : Option String
deriving DecidableEq

/-- requests' case-insensitive `response.headers.get(key, default)`. -/
def headerGet (hs : List (String × String)) (key dflt : String) : String :=
  match hs.find? (fun p => pyLower p.1 == pyLower key) with
  | some p => p.2
  | none => dflt

/-- The uniform error record returned from the `except` branch of
`check_akamai_cache` (src/app.py lines 168-187): every echoed field is the
`'ERROR'` sentinel and the exception text is captured. -/
def errorProbeResult (url msg : String) : ProbeResult where
  url := url
  status_code := none
  cache_hit := "ERROR"
  x_cache := "ERROR"
  x_cache_remote := "ERROR"
  x_check_cacheable := "ERROR"
  x_cache_key := "ERROR"
  x_true_cache_key := "ERROR"
  x_served_by := "ERROR"
  x_timer := "ERROR"
  age := "ERROR"
  cache_control := "ERROR"
  response_time_ms := none
  is_aem := none
  aem_confidence := none
  aem_evidence := none
  error := some msg

/-- The probe unit `check_akamai_cache` (src/app.py lines 82-187).  The
network fetch is represented by the `outcome` argument: `.ok response` for a
completed request (redirects already followed), `.error msg` for any raised
transport failure, whose handler builds the uniform error record. -/
def check_akamai_cache (url : String) (test_for_aem : Bool)
    (outcome : Except String Response) : ProbeResult :=
  match outcome with
  | .error e => errorProbeResult url e
  | .ok response =>
    let x_cache := headerGet response.headers "X-Cache" "NOT_FOUND"
    let x_cache_remote := headerGet response.headers "X-Cache-Remote" "NOT_FOUND"
    let x_check_cacheable := headerGet response.headers "X-Check-Cacheable" "UNKNOWN"
    let x_cache_key := headerGet response.headers "X-Cache-Key" "NOT_FOUND"
    let x_true_cache_key := headerGet response.headers "X-True-Cache-Key" "NOT_FOUND"
    let x_served_by := headerGet response.headers "X-Served-By" "NOT_FOUND"
    let x_timer := headerGet response.headers "X-Timer" "NOT_FOUND"
    let age := headerGet response.headers "Age" "0"
    let cache_control := headerGet response.headers "Cache-Control" "NOT_FOUND"
    let verdict := classifySignals x_cache x_check_cacheable age x_timer
    let aem := if test_for_aem then some (detect_aem response) else none
    { url := url
      status_code := some response.status_code
      cache_hit := verdict.1
      x_cache := x_cache
      x_cache_remote := x_cache_remote
      x_check_cacheable := x_check_cacheable
      x_cache_key := x_cache_key
      x_true_cache_key := x_true_cache_key
      x_served_by := x_served_by
      x_timer := x_timer
      age := age
      cache_control := cache_control
      response_time_ms := verdict.2
      is_aem := aem.map (fun a => a.1)
      aem_confidence := aem.map (fun a => a.2.1)
      aem_evidence := aem.map (fun a => a.2.2)
      error := none }

/-- The classifier never produces the error sentinel as a verdict. -/
theorem classifySignals_fst_ne_error (a b c d : String) :
    (classifySignals a b c d).1 ≠ "ERROR" := by
  unfold classifySignals
  repeat' split
  all_goals simp

/-- C3: the probe unit never raises: a transport failure yields the uniform
error record — every field the error sentinel plus the captured message — a
completed response yields a successful classification with `error = none`,
and exactly one of {successful classification, error shape} holds for every
result it produces. -/
theorem C3_probe_unit_never_raises (url : String) (test_for_aem : Bool)
    (outcome : Except String Response) :
    (∀ msg, outcome = .error msg →
      check_akamai_cache url test_for_aem outcome = errorProbeResult url msg) ∧
    (∀ resp, outcome = .ok resp →
      (check_akamai_cache url test_for_aem outcome).error = none ∧
      (check_akamai_cache url test_for_aem outcome).status_code = some resp.status_code) ∧
    (((check_akamai_cache url test_for_aem outcome).error = none ∧
        ¬((check_akamai_cache url test_for_aem outcome).cache_hit = "ERROR" ∧
          (check_akamai_cache url test_for_aem outcome).status_code = none)) ∨
      ((check_akamai_cache url test_for_aem outcome).error ≠ none ∧
        (check_akamai_cache url test_for_aem outcome).cache_hit = "ERROR" ∧
        (check_akamai_cache url test_for_aem outcome).status_code = none)) := by
  refine ⟨?_, ?_, ?_⟩
  · intro msg h; subst h; rfl
  · intro resp h; subst h; exact ⟨rfl, rfl⟩
  · cases outcome with
    | error e =>
      right
      exact ⟨by simp [check_akamai_cache, errorProbeResult], rfl, rfl⟩
    | ok resp =>
      left
      refine ⟨rfl, ?_⟩
      rintro ⟨hc, -⟩
      exact classifySignals_fst_ne_error _ _ _ _ hc

/-- Witness for C3 at a concrete transport failure. -/
theorem C3_probe_unit_never_raises_witness :
    check_akamai_cache "https://example.com/" false (.error "timeout") =
      errorProbeResult "https://example.com/" "timeout" :=
  (C3_probe_unit_never_raises "https://example.com/" false (.error "timeout")).1
    "timeout" rfl

/-! ## Result Aggregator (src/app.py lines 389-426) -/

/-- Round-half-to-even integer rounding, the tie rule of Python's `round`.
Python rounds the IEEE double; the model rounds the exact rational. -/
def roundHalfEven (q : ℚ) : ℤ :=
  let f := ⌊q⌋
  let r := q - (f : ℚ)
  if r < 1/2 then f
  else if r > 1/2 then f + 1
  else if f % 2 = 0 then f else f + 1

/-- Python `round(x, 2)` on exact rationals. -/
def pyRound2 (q : ℚ) : ℚ := (roundHalfEven (q * 100) : ℚ) / 100

/-- `hits`: verdicts containing `"HIT"` (confirmed and inferred). -/
def hitsCount (rs : List ProbeResult) : Nat :=
  rs.countP (fun r => strContains r.cache_hit "HIT")

/-- `misses`: verdicts containing `"MISS"`. -/
def missesCount (rs : List ProbeResult) : Nat :=
  rs.countP (fun r => strContains r.cache_hit "MISS")

/-- `not_cacheable`: verdicts equal to `"NOT_CACHEABLE"`. -/
def notCacheableCount (rs : List ProbeResult) : Nat :=
  rs.countP (fun r => r.cache_hit == "NOT_CACHEABLE")

/-- `errors`: verdicts equal to `"ERROR"`. -/
def errorsCount (rs : List ProbeResult) : Nat :=
  rs.countP (fun r => r.cache_hit == "ERROR")

/-- `unknown`: verdicts containing `"UNKNOWN"`. -/
def unknownCount (rs : List ProbeResult) : Nat :=
  rs.countP (fun r => strContains r.cache_hit "UNKNOWN")

/-- `cacheable_total = total - not_cacheable - errors` (src/app.py line 408). -/
def cacheableTotal (rs : List ProbeResult) : ℤ :=
  (rs.length : ℤ) - (notCacheableCount rs : ℤ) - (errorsCount rs : ℤ)

/-- The summary dict assembled by `test_sitemap` (src/app.py lines 413-426). -/
structure RunSummary where
  total_urls : Nat
  cache_hits : Nat
  cache_misses : Nat
  confirmed_hits : Nat
  inferred_hits : Nat
  confirmed_misses : Nat
  inferred_misses : Nat
  not_cacheable : Nat
  total_aem_detected : Nat
  errors : Nat
  unknown : Nat
  cache_hit_ratio : ℚ

/-- The statistics reduction of `test_sitemap` (src/app.py lines 389-426). -/
def summaryOf (rs : List ProbeResult) : RunSummary :=
  let ratio : ℚ :=
    if 0 < cacheableTotal rs then
      (hitsCount rs : ℚ) / (cacheableTotal rs : ℚ) * 100
    else 0
  { total_urls := rs.length
    cache_hits := hitsCount rs
    cache_misses := missesCount rs
    confirmed_hits := rs.countP (fun r => r.cache_hit == "HIT" || r.cache_hit == "REFRESH_HIT")
    inferred_hits := rs.countP (fun r => r.cache_hit == "HIT (inferred from timing)")
    confirmed_misses := rs.countP (fun r => r.cache_hit == "MISS" || r.cache_hit == "REFRESH_MISS")
    inferred_misses := rs.countP (fun r => r.cache_hit == "MISS (inferred from timing)")
    not_cacheable := notCacheableCount rs
    total_aem_detected := rs.countP (fun r => r.is_aem == some true)
    errors := errorsCount rs
    unknown := unknownCount rs
    cache_hit_ratio := pyRound2 ratio }

/-- C7: `cacheable_total` is `total - not_cacheable - errors`; for a positive
cacheable total the reported hit ratio is `hits / cacheable_total × 100`
rounded to two decimals, and for a zero cacheable total it is exactly 0 —
never a division error. -/
theorem C7_hit_ratio_formula (rs : List ProbeResult) :
    cacheableTotal rs =
      (rs.length : ℤ) - (notCacheableCount rs : ℤ) - (errorsCount rs : ℤ) ∧
    (0 < cacheableTotal rs →
      (summaryOf rs).cache_hit_ratio =
        pyRound2 ((hitsCount rs : ℚ) / (cacheableTotal rs : ℚ) * 100)) ∧
    (cacheableTotal rs = 0 → (summaryOf rs).cache_hit_ratio = 0) := by
  refine ⟨rfl, ?_, ?_⟩
  · intro h
    simp [summaryOf, h]
  · intro h
    have h0 : pyRound2 0 = 0 := by norm_num [pyRound2, roundHalfEven]
    simp [summaryOf, h, h0]

/-- A successful result record carrying only the verdict `v`; all other
fields are immaterial to the aggregation. -/
def plainResult (v : String) : ProbeResult :=
  { url := "", status_code := some 200, cache_hit := v, x_cache := "",
    x_cache_remote := "", x_check_cacheable := "", x_cache_key := "",
    x_true_cache_key := "", x_served_by := "", x_timer := "", age := "0",
    cache_control := "", response_time_ms := none, is_aem := none,
    aem_confidence := none, aem_evidence := none, error := none }

/-- The spec's worked example: 3 confirmed hits, 3 inferred hits, 2 misses,
1 not-cacheable, 1 error over 10 URLs. -/
def mixedResults : List ProbeResult :=
  [plainResult "HIT", plainResult "HIT", plainResult "HIT",
   plainResult "HIT (inferred from timing)", plainResult "HIT (inferred from timing)",
   plainResult "HIT (inferred from timing)", plainResult "MISS", plainResult "MISS",
   plainResult "NOT_CACHEABLE", plainResult "ERROR"]

/-- Witness for C7 at the spec's worked example (cacheable total 8 > 0). -/
theorem C7_hit_ratio_formula_witness :
    0 < cacheableTotal mixedResults ∧
    (summaryOf mixedResults).cache_hit_ratio =
      pyRound2 ((hitsCount mixedResults : ℚ) / (cacheableTotal mixedResults : ℚ) * 100) :=
  ⟨by decide, (C7_hit_ratio_formula mixedResults).2.1 (by decide)⟩

/-! ## Batch Scheduler (src/app.py lines 373-387)

The loop `for i in range(0, len(urls), URL_BATCH_SIZE)` slices
`urls[i:i + URL_BATCH_SIZE]` per iteration and sleeps after a batch exactly
when `i + URL_BATCH_SIZE < len(urls)`.  The batch size is the module
constant 3 in the source; the embedding keeps it as a parameter. -/

/-- Fuel-driven worker for `pyRange`; `stop + 1` fuel always suffices for a
positive step. -/
def pyRangeGo (step : Nat) : Nat → Nat → Nat → List Nat
  | 0, _, _ => []
  | fuel + 1, start, stop =>
    if start < stop then start :: pyRangeGo step fuel (start + step) stop else []

/-- Python `range(start, stop, step)` for a positive step. -/
def pyRange (start stop step : Nat) : List Nat := pyRangeGo step (stop + 1) start stop

/-- The batch slices produced by the scheduler loop. -/
def batches {α : Type} (urls : List α) (batch_size : Nat) : List (List α) :=
  (pyRange 0 urls.length batch_size).map (fun i => (urls.drop i).take batch_size)

/-- Number of executed inter-batch pauses: `time.sleep(BATCH_DELAY)` runs for
exactly the iterations with `i + batch_size < len(urls)`. -/
def delayCount (n batch_size : Nat) : Nat :=
  ((pyRange 0 n batch_size).filter (fun i => i + batch_size < n)).length

theorem pyRangeGo_stop (stop step : Nat) :
    ∀ fuel start, ¬ start < stop → pyRangeGo step fuel start stop = [] := by
  intro fuel start h
  cases fuel <;> simp [pyRangeGo, h]

theorem pyRangeGo_length (stop step : Nat) (hs : 0 < step) :
    ∀ fuel start, stop - start ≤ fuel →
      (pyRangeGo step fuel start stop).length = (stop - start + step - 1) / step := by
  intro fuel
  induction fuel with
  | zero =>
    intro start h
    simp only [pyRangeGo, List.length_nil]
    rw [eq_comm, Nat.div_eq_of_lt (by omega)]
  | succ fuel ih =>
    intro start h
    simp only [pyRangeGo]
    by_cases hlt : start < stop
    · simp only [hlt, if_true, List.length_cons]
      rw [ih (start + step) (by omega)]
      by_cases hend : stop ≤ start + step
      · have e0 : stop - (start + step) = 0 := by omega
        have h1 : (stop - start + step - 1) / step = 1 :=
          Nat.div_eq_of_lt_le (by omega) (by omega)
        have h2 : (0 + step - 1) / step = 0 := Nat.div_eq_of_lt (by omega)
        rw [e0, h2, h1]
      · have e1 : stop - (start + step) + step - 1 = stop - start - 1 := by omega
        have e2 : stop - start + step - 1 = (stop - start - 1) + step := by omega
        rw [e1, e2, Nat.add_div_right _ hs]
    · simp only [hlt, if_false, List.length_nil]
      rw [eq_comm, Nat.div_eq_of_lt (by omega)]

theorem pyRangeGo_flatten {α : Type} (urls : List α) (step : Nat) (hs : 0 < step) :
    ∀ fuel start, urls.length - start ≤ fuel →
      ((pyRangeGo step fuel start urls.length).map
        (fun i => (urls.drop i).take step)).flatten = urls.drop start := by
  intro fuel
  induction fuel with
  | zero =>
    intro start h
    rw [eq_comm, List.drop_eq_nil_of_le (by omega)]
    simp [pyRangeGo]
  | succ fuel ih =>
    intro start h
    simp only [pyRangeGo]
    by_cases hlt : start < urls.length
    · simp only [hlt, if_true, List.map_cons, List.flatten_cons]
      rw [ih (start + step) (by omega)]
      have e : urls.drop (start + step) = (urls.drop start).drop step := by
        rw [List.drop_drop, Nat.add_comm]
      rw [e, List.take_append_drop]
    · simp only [hlt, if_false, List.map_nil, List.flatten_nil]
      rw [eq_comm, List.drop_eq_nil_of_le (by omega)]

theorem pyRangeGo_delays (stop step : Nat) (hs : 0 < step) :
    ∀ fuel start, stop - start ≤ fuel →
      ((pyRangeGo step fuel start stop).filter (fun i => i + step < stop)).length =
        (pyRangeGo step fuel start stop).length - 1 := by
  intro fuel
  induction fuel with
  | zero => intro start h; simp [pyRangeGo]
  | succ fuel ih =>
    intro start h
    simp only [pyRangeGo]
    by_cases hlt : start < stop
    · by_cases hnext : start + step < stop
      · have hlen : (pyRangeGo step fuel (start + step) stop).length =
            (stop - (start + step) + step - 1) / step :=
          pyRangeGo_length stop step hs fuel (start + step) (by omega)
        have hpos : 1 ≤ (pyRangeGo step fuel (start + step) stop).length := by
          rw [hlen, Nat.one_le_div_iff hs]
          omega
        rw [if_pos hlt, List.filter_cons_of_pos (by simpa using hnext)]
        simp only [List.length_cons]
        rw [ih (start + step) (by omega)]
        omega
      · have hrest : pyRangeGo step fuel (start + step) stop = [] :=
          pyRangeGo_stop stop step fuel (start + step) hnext
        rw [if_pos hlt, hrest, List.filter_cons_of_neg (by simpa using hnext)]
        simp
    · simp [hlt, pyRangeGo]

theorem pyRangeGo_mem_lt (stop step : Nat) :
    ∀ fuel start i, i ∈ pyRangeGo step fuel start stop → i < stop := by
  intro fuel
  induction fuel with
  | zero => intro start i h; simp [pyRangeGo] at h
  | succ fuel ih =>
    intro start i h
    simp only [pyRangeGo] at h
    by_cases hlt : start < stop
    · simp only [hlt, if_true, List.mem_cons] at h
      rcases h with h | h
      · omega
      · exact ih (start + step) i h
    · simp [hlt] at h

/-- C8: for a positive batch size the scheduler slices the URL list into
`⌈n / b⌉` consecutive groups covering the list in order, every group nonempty
and of size at most `b`, and pauses exactly once after every group except the
last; in particular 25 URLs give 9 groups and 8 delays at batch size 3, and 3
groups and 2 delays at batch size 10. -/
theorem C8_batch_partition {α : Type} (urls : List α) (b : Nat) (hb : 0 < b) :
    (batches urls b).length = (urls.length + b - 1) / b ∧
    (batches urls b).flatten = urls ∧
    (∀ g ∈ batches urls b, g.length ≤ b ∧ g ≠ []) ∧
    delayCount urls.length b = (batches urls b).length - 1 ∧
    ((batches (List.range 25) 3).length = 9 ∧ delayCount 25 3 = 8 ∧
      (batches (List.range 25) 10).length = 3 ∧ delayCount 25 10 = 2) := by
  refine ⟨?_, ?_, ?_, ?_, by decide, by decide, by decide, by decide⟩
  · rw [batches, List.length_map, pyRange,
      pyRangeGo_length urls.length b hb _ 0 (by omega), Nat.sub_zero]
  · rw [batches, pyRange, pyRangeGo_flatten urls b hb _ 0 (by omega), List.drop_zero]
  · intro g hg
    rw [batches, List.mem_map] at hg
    obtain ⟨i, hi, rfl⟩ := hg
    have hilt : i < urls.length := pyRangeGo_mem_lt urls.length b _ 0 i hi
    constructor
    · simp [min_le_left b (urls.length - i)]
    · have : 0 < ((urls.drop i).take b).length := by
        simp only [List.length_take, List.length_drop]
        omega
      exact List.ne_nil_of_length_pos this
  · rw [delayCount, batches, List.length_map, pyRange,
      pyRangeGo_delays urls.length b hb _ 0 (by omega)]

/-- Witness for C8 at the spec's concrete instance: 25 URLs, batch size 3. -/
theorem C8_batch_partition_witness :
    (batches (List.range 25) 3).length = (25 + 3 - 1) / 3 ∧
    delayCount (List.range 25).length 3 = (batches (List.range 25) 3).length - 1 := by
  have h := C8_batch_partition (List.range 25) 3 (by decide)
  exact ⟨by simpa using h.1, by simpa using h.2.2.2.1⟩

/-! ## Run-facing API: request handling of test_sitemap
(src/app.py lines 340-369) -/

/-- A JSON value as carried in the request body. -/
inductive JVal where
  | jnull
  | jbool (b : Bool)
  | jnum (q : ℚ)
  | jstr (s : String)
deriving DecidableEq

/-- `data.get(key)` on a JSON object modelled as an association list. -/
def jget (data : List (String × JVal)) (k : String) : Option JVal :=
  (data.find? (fun p => p.1 == k)).map (fun p => p.2)

/-- What the route does before its first network call. -/
inductive PreNetwork where
  | reject (status : Nat) (errmsg : String)
  | fetchSitemap (sitemap_url : String) (check_aem : Bool)
deriving DecidableEq

/-- The request-handling prefix of `test_sitemap` (src/app.py lines 352-361):
everything the route executes before `parse_sitemap` performs the first
network request.  It reads only `sitemap_url` (default `''`, then `.strip()`)
and `check_aem` (default `True`) from the request JSON, rejects an empty
sitemap URL with a 400, and otherwise proceeds straight to fetching the
sitemap.  No other key of the request — in particular `batch_size`,
`batch_delay` or `max_urls` — is read or validated anywhere in the route:
batching uses the module constants `URL_BATCH_SIZE = 3`, `BATCH_DELAY = 1.0`
and the local `max_urls = 100`. -/
def test_sitemap_preNetwork (data : List (String × JVal)) : PreNetwork :=
  let sitemap_url := pyStrip (match jget data "sitemap_url" with
    | some (.jstr s) => s
    | _ => "")
  let check_aem := match jget data "check_aem" with
    | some (.jbool b) => b
    | _ => true
  if sitemap_url == "" then PreNetwork.reject 400 "Please provide a sitemap URL"
  else PreNetwork.fetchSitemap sitemap_url check_aem

/-- C4 (code bug): a request with `batch_size = 0` (or any invalid
`batch_delay`/`max_urls`) is NOT rejected — the route ignores those keys
entirely and proceeds to fetch the sitemap, i.e. to network activity, while
the repository's own test suite (`test_configurable_batching.py`,
`test_invalid_batch_size`/`test_invalid_batch_delay`/`test_invalid_max_urls`)
expects a 400 error naming the offending parameter before any fetch. -/
theorem C4_no_config_validation :
    test_sitemap_preNetwork
        [("sitemap_url", JVal.jstr "https://example.com/sitemap.xml"),
         ("batch_size", JVal.jnum 0), ("batch_delay", JVal.jnum (-1)),
         ("max_urls", JVal.jnum 0)] =
      PreNetwork.fetchSitemap "https://example.com/sitemap.xml" true ∧
    ∀ status errmsg,
      test_sitemap_preNetwork
          [("sitemap_url", JVal.jstr "https://example.com/sitemap.xml"),
           ("batch_size", JVal.jnum 0), ("batch_delay", JVal.jnum (-1)),
           ("max_urls", JVal.jnum 0)] ≠
        PreNetwork.reject status errmsg := by
  refine ⟨by decide, ?_⟩
  intro status errmsg h
  rw [show test_sitemap_preNetwork
      [("sitemap_url", JVal.jstr "https://example.com/sitemap.xml"),
       ("batch_size", JVal.jnum 0), ("batch_delay", JVal.jnum (-1)),
       ("max_urls", JVal.jnum 0)] =
      PreNetwork.fetchSitemap "https://example.com/sitemap.xml" true from by decide] at h
  exact absurd h (by simp)

end AkamaiCacheTester
